import Mathlib

/-! # Qcodes_contrib_drivers: documentation build and example notebooks

Shallow embedding of the observable surface of the repository: the Sphinx
documentation Makefile (`docs/Makefile`) and the three example notebooks
(Thorlabs MFF10x, Thorlabs PRM1Z8, Thorlabs KLS1550).  The Makefile is
transcribed rule by rule; each notebook's code cells are transcribed as a
sequence of driver operations together with the outputs the notebook records.
The driver classes themselves are not among the provided sources, so the
pass-through parameter semantics the spec describes is modelled explicitly
where a claim needs it (see `VendorHw`). -/

/-- A Python value as it appears in a notebook cell (set arguments and printed
get outputs).  Decimal literals are kept exactly as printed: `pyFloat m e`
denotes the float whose printed decimal form is `m / 10 ^ e`, so
`pyFloat 2000 1` is `200.0` and `pyFloat 9000012969970703 14` is
`90.00012969970703`.  `pyInt n` is a Python `int` literal, which Python
displays without a decimal point. -/
inductive PyValue where
  | pyInt : Int → PyValue
  | pyFloat : Int → Nat → PyValue
  | pyBool : Bool → PyValue
  deriving DecidableEq

/-- One driver-level operation performed by a notebook code cell.

* `openServer n` - construction of a vendor SDK server wrapper
  (`Thorlabs_APT()` / `Thorlabs_Kinesis(...)`), bound to name `n`;
* `openInstr n srv` - construction of a driver object for instrument `n`
  against server `srv` (opens the vendor DLL connection to the device);
* `deviceList srv` - `srv.device_list()`;
* `closeAll` - `qc.Instrument.close_all()`, which closes every currently
  open instrument (the SDK server wrappers are not qcodes instruments);
* `getParam i p out lbl unit` - `i.p.get()`, where `out` is the output the
  notebook records (if any) and `lbl`/`unit` are the label and unit strings
  the cell additionally prints (if any);
* `setParam i p v` - `i.p.set(v)`;
* `closeInstr i` - `i.close()`;
* `cleanupServer srv` - `srv.apt_clean_up()`. -/
inductive Op where
  | openServer : String → Op
  | openInstr : String → String → Op
  | deviceList : String → Op
  | closeAll : Op
  | getParam : String → String → Option PyValue → Option String → Option String → Op
  | setParam : String → String → PyValue → Op
  | closeInstr : String → Op
  | cleanupServer : String → Op
  deriving DecidableEq

/-- An example notebook: its name, the driver operations of its code cells in
order, and the value of its `nbsphinx.execute` metadata entry when the
provided source records the notebook's metadata. -/
structure Notebook where
  name : String
  ops : List Op
  nbsphinxExecute : Option String
  deriving DecidableEq

/-- `docs/examples/Thorlabs_MFF10x.ipynb`: open the APT server, open the
MFF10x flipper, read `position` (output `0`), set `position` to `1`, read it
back (output `1`), close the instrument, clean up the server.  Metadata:
`nbsphinx.execute = "never"`. -/
def mff10xNotebook : Notebook :=
  ⟨"Thorlabs_MFF10x",
    [ Op.openServer "apt",
      Op.openInstr "thorlabs_mff10x" "apt",
      Op.getParam "thorlabs_mff10x" "position" (some (PyValue.pyInt 0)) none none,
      Op.setParam "thorlabs_mff10x" "position" (PyValue.pyInt 1),
      Op.getParam "thorlabs_mff10x" "position" (some (PyValue.pyInt 1)) none none,
      Op.closeInstr "thorlabs_mff10x",
      Op.cleanupServer "apt" ],
    some "never"⟩

/-- `docs/examples/Thorlabs_PRM1Z8.ipynb`: open the APT server, open the
PRM1Z8 polarizer wheel, print label, `position.get()` and unit (output
`position 90.00012969970703 °`), set `position` to `200.0`, print again
(output `position 200.00189208984375 °`), close the instrument, clean up the
server.  Metadata: `nbsphinx.execute = "never"`. -/
def prm1z8Notebook : Notebook :=
  ⟨"Thorlabs_PRM1Z8",
    [ Op.openServer "apt",
      Op.openInstr "thorlabs_prm1z8" "apt",
      Op.getParam "thorlabs_prm1z8" "position"
        (some (PyValue.pyFloat 9000012969970703 14)) (some "position") (some "°"),
      Op.setParam "thorlabs_prm1z8" "position" (PyValue.pyFloat 2000 1),
      Op.getParam "thorlabs_prm1z8" "position"
        (some (PyValue.pyFloat 20000189208984375 14)) (some "position") (some "°"),
      Op.closeInstr "thorlabs_prm1z8",
      Op.cleanupServer "apt" ],
    some "never"⟩

/-- `docs/examples/Thorlabs_KLS1550.ipynb`: open the Kinesis server wrapper,
print its device list, `qc.Instrument.close_all()`, open the KLS1550 laser,
set `output_enabled` to `True` then `False`, read it (no output recorded),
set `power` to `1e-3`, read it (no output recorded), close the laser (the
server is deliberately left running).  The provided extraction of this
notebook records only its cells, not its metadata, so its
`nbsphinx.execute` entry is unknown here. -/
def kls1550Notebook : Notebook :=
  ⟨"Thorlabs_KLS1550",
    [ Op.openServer "kinesis",
      Op.deviceList "kinesis",
      Op.closeAll,
      Op.openInstr "laser" "kinesis",
      Op.setParam "laser" "output_enabled" (PyValue.pyBool true),
      Op.setParam "laser" "output_enabled" (PyValue.pyBool false),
      Op.getParam "laser" "output_enabled" none none none,
      Op.setParam "laser" "power" (PyValue.pyFloat 1 3),
      Op.getParam "laser" "power" none none none,
      Op.closeInstr "laser" ],
    none⟩

/-- The example notebooks of the repository, in the order of the sources. -/
def exampleNotebooks : List Notebook :=
  [mff10xNotebook, prm1z8Notebook, kls1550Notebook]

/-- The vendor SDK server wrappers appearing in the notebooks; everything
else opened is an instrument driver object. -/
def serverNames : List String := ["apt", "kinesis"]

/-- One step of the connection lifecycle: `conns` is the list of currently
open connections (servers and instruments).  A parameter access or a close on
a connection that is not open is a lifecycle violation (`none`).
`closeAll` closes every open instrument and leaves the servers. -/
def lifeStep (conns : List String) : Op → Option (List String)
  | Op.openServer n => some (n :: conns)
  | Op.openInstr n _ => some (n :: conns)
  | Op.deviceList s => if conns.contains s then some conns else none
  | Op.closeAll => some (conns.filter (fun n => serverNames.contains n))
  | Op.getParam i _ _ _ _ => if conns.contains i then some conns else none
  | Op.setParam i _ _ => if conns.contains i then some conns else none
  | Op.closeInstr i => if conns.contains i then some (conns.erase i) else none
  | Op.cleanupServer s => if conns.contains s then some (conns.erase s) else none

/-- Run the lifecycle check over a whole operation sequence. -/
def runLife : List String → List Op → Option (List String)
  | conns, [] => some conns
  | conns, op :: ops =>
    match lifeStep conns op with
    | some conns2 => runLife conns2 ops
    | none => none

/-- Whether an operation closes a connection. -/
def isCloseOp : Op → Bool
  | Op.closeInstr _ => true
  | Op.cleanupServer _ => true
  | _ => false

/-- The open/close lifecycle property of a notebook's operation sequence:
every parameter get/set and every close happens while the connection is open
(so gets and sets only occur between the driver's construction and its
close), every instrument opened has been closed by the end (at most the SDK
server wrappers stay open), and the final operation is a close. -/
def lifecycleOK (ops : List Op) : Bool :=
  (match runLife [] ops with
   | some rest => rest.all (fun n => serverNames.contains n)
   | none => false)
  && (match ops.getLast? with
      | some op => isCloseOp op
      | none => false)

/-- A program invoked by one recipe line of `docs/Makefile`.

* `sphinxBuild mode src bld extra` is
  `$(SPHINXBUILD) -M mode "$(SOURCEDIR)" "$(BUILDDIR)" $(SPHINXOPTS) $(O)`
  followed by the further options `extra` (sphinx-build in make mode);
* `sphinxApidoc out d mod excl` is `sphinx-apidoc -o out -d d mod excl...`;
* `rmrf p` is `rm -rf p`;
* `mkdirp p` is `mkdir -p p`;
* `copyFiles s d` is `cp s d`. -/
inductive Prog where
  | sphinxBuild : String → String → String → List String → Prog
  | sphinxApidoc : String → Nat → String → List String → Prog
  | rmrf : String → Prog
  | mkdirp : String → Prog
  | copyFiles : String → String → Prog
  deriving DecidableEq

/-- One recipe line: whether it carries make's ignore-errors marker (a
leading dash, which none of the lines in this Makefile has), whether it is
silenced with a leading `@`, and the program it runs. -/
structure MakeCmd where
  ignoreErrors : Bool
  silent : Bool
  prog : Prog
  deriving DecidableEq

/-- A Makefile rule: target name, prerequisites, recipe. -/
structure MakeRule where
  target : String
  prereqs : List String
  recipe : List MakeCmd
  deriving DecidableEq

/-- `SOURCEDIR = .` in the Makefile. -/
def sourceDir : String := "."

/-- `BUILDDIR = _build` in the Makefile. -/
def buildDir : String := "_build"

/-- The `help` rule (first rule of the Makefile). -/
def helpRule : MakeRule :=
  ⟨"help", [], [⟨false, true, Prog.sphinxBuild "help" sourceDir buildDir []⟩]⟩

/-- The `clean` rule. -/
def cleanRule : MakeRule :=
  ⟨"clean", [],
    [⟨false, false, Prog.rmrf "_build/*"⟩,
     ⟨false, false, Prog.rmrf "_auto"⟩,
     ⟨false, false, Prog.rmrf "api/generated"⟩,
     ⟨false, true, Prog.sphinxBuild "clean" sourceDir buildDir []⟩]⟩

/-- The `genapi` rule: extract API docs with sphinx-apidoc (maxdepth 10,
excluding `drivers/Spectrum/pyspcm.py`) into `_auto`, then copy the
generated `qcodes_contrib_drivers.drivers.*` files into `api/generated/`. -/
def genapiRule : MakeRule :=
  ⟨"genapi", [],
    [⟨false, false, Prog.sphinxApidoc "_auto" 10 "../src/qcodes_contrib_drivers"
        ["../src/qcodes_contrib_drivers/drivers/Spectrum/pyspcm.py"]⟩,
     ⟨false, false, Prog.mkdirp "api/generated/"⟩,
     ⟨false, false, Prog.copyFiles "_auto/qcodes_contrib_drivers.drivers.*" "api/generated/"⟩]⟩

/-- The `htmlfast` rule: a faster build that skips execution of all
notebooks by handing sphinx-build the extra options
`-D nbsphinx_execute=never`; it runs sphinx-build in `html` mode. -/
def htmlfastRule : MakeRule :=
  ⟨"htmlfast", ["genapi"],
    [⟨false, true, Prog.sphinxBuild "html" sourceDir buildDir
        ["-D", "nbsphinx_execute=never"]⟩]⟩

/-- The catch-all rule `%: Makefile genapi`, which routes any other target
name `t` to sphinx-build in make mode with `t` as the mode, unchanged. -/
def catchAllRule (t : String) : MakeRule :=
  ⟨t, ["Makefile", "genapi"], [⟨false, true, Prog.sphinxBuild t sourceDir buildDir []⟩]⟩

/-- The explicitly named rules, in the order they appear in the Makefile. -/
def explicitRules : List MakeRule := [helpRule, cleanRule, genapiRule, htmlfastRule]

/-- The `.PHONY` declaration of the Makefile. -/
def phonyTargets : List String := ["help", "Makefile", "clean", "genapi", "htmlfast"]

/-- Make's default goal is the target of the first rule in the file. -/
def defaultGoal : String := ((explicitRules.head?).map MakeRule.target).getD ""

/-- Dispatch of a target name: the four explicitly named rules match by
name, every other name is matched by the catch-all rule. -/
def resolveTarget (t : String) : MakeRule :=
  if t = "help" then helpRule
  else if t = "clean" then cleanRule
  else if t = "genapi" then genapiRule
  else if t = "htmlfast" then htmlfastRule
  else catchAllRule t

/-- Look a prerequisite name up among the explicitly named rules.  The
prerequisite `Makefile` names an ordinary file with no rule of its own, so
it contributes no recipe. -/
def lookupRule (n : String) : Option MakeRule :=
  explicitRules.find? (fun r => r.target == n)

/-- The rules make runs for target `t`: prerequisite rules first, then the
target's own rule.  The only rule prerequisite occurring in this Makefile
(`genapi`) has no prerequisites of its own, so one level is exact. -/
def planRules (t : String) : List MakeRule :=
  ((resolveTarget t).prereqs.filterMap lookupRule) ++ [resolveTarget t]

/-- The names of the rules run for target `t`, in execution order. -/
def planNames (t : String) : List String := (planRules t).map MakeRule.target

/-- The recipe lines make runs for target `t`, in execution order. -/
def planCmds (t : String) : List MakeCmd := (planRules t).flatMap MakeRule.recipe

/-- Where a command-line-settable Makefile variable is consumed.
`repoSpecific` would mark a flag with repository-defined meaning; no
variable of this Makefile has that use. -/
inductive VarUse where
  | sphinxOptions
  | sphinxProgram
  | repoSpecific
  deriving DecidableEq

/-- A Makefile variable settable from the command line or environment. -/
structure MakeVar where
  name : String
  use : VarUse
  deriving DecidableEq

/-- The settable variables of the Makefile: `SPHINXOPTS` and its shortcut
`O` are appended to every sphinx-build invocation; `SPHINXBUILD` names the
sphinx-build executable itself. -/
def makefileVariables : List MakeVar :=
  [⟨"SPHINXOPTS", VarUse.sphinxOptions⟩,
   ⟨"SPHINXBUILD", VarUse.sphinxProgram⟩,
   ⟨"O", VarUse.sphinxOptions⟩]

/-- A variable is a pass-through Sphinx option (or the Sphinx program
itself), not a repository-specific flag. -/
def varIsSphinxPassThrough (v : MakeVar) : Bool :=
  match v.use with
  | VarUse.sphinxOptions => true
  | VarUse.sphinxProgram => true
  | VarUse.repoSpecific => false

/-- Target `t` is passed through to sphinx-build unchanged: its recipe is
exactly one sphinx-build invocation whose make-mode argument is `t` itself,
with no extra options. -/
def passedThroughUnchanged (t : String) : Bool :=
  match (resolveTarget t).recipe with
  | [MakeCmd.mk _ _ (Prog.sphinxBuild m _ _ extra)] => m == t && extra.isEmpty
  | _ => false

/-- The locations holding generated documentation: the Sphinx build tree,
the sphinx-apidoc output tree and the copied api stubs.  These are exactly
the path arguments occurring in the Makefile's file commands. -/
def generatedDocPaths : List String :=
  ["_build/*", "_auto", "api/generated", "api/generated/",
   "_auto/qcodes_contrib_drivers.drivers.*"]

/-- A path argument lies in the generated-documentation area. -/
def inGeneratedDocArea (p : String) : Bool := generatedDocPaths.contains p

/-- A recipe line is documentation work: a Sphinx toolchain invocation, or a
file command all of whose path arguments lie in the generated-doc area. -/
def isDocWork (c : MakeCmd) : Bool :=
  match c.prog with
  | Prog.sphinxBuild _ _ _ _ => true
  | Prog.sphinxApidoc _ _ _ _ => true
  | Prog.rmrf p => inGeneratedDocArea p
  | Prog.mkdirp p => inGeneratedDocArea p
  | Prog.copyFiles s d => inGeneratedDocArea s && inGeneratedDocArea d

/-- A rule's recipe contains a sphinx-build (make mode) invocation. -/
def recipeInvokesSphinxBuild (r : MakeRule) : Bool :=
  r.recipe.any (fun c =>
    match c.prog with
    | Prog.sphinxBuild _ _ _ _ => true
    | _ => false)

/-- Origin of any state that survives an operation at the observable
boundary.  `repoDefined` would mark content whose bytes or format this
repository itself defines; the theorems below show no command has it. -/
inductive PersistedOrigin where
  | sphinxToolchain
  | vendorSdk
  | nothingPersisted
  | repoDefined
  deriving DecidableEq

/-- Origin of the state surviving a Makefile recipe line: sphinx-build and
sphinx-apidoc write content of the Sphinx toolchain's format; the `cp` in
`genapi` copies files sphinx-apidoc just wrote; removals and an empty
directory persist no repository-defined content. -/
def cmdPersistedOrigin (c : MakeCmd) : PersistedOrigin :=
  match c.prog with
  | Prog.sphinxBuild _ _ _ _ => PersistedOrigin.sphinxToolchain
  | Prog.sphinxApidoc _ _ _ _ => PersistedOrigin.sphinxToolchain
  | Prog.rmrf _ => PersistedOrigin.nothingPersisted
  | Prog.mkdirp _ => PersistedOrigin.nothingPersisted
  | Prog.copyFiles _ _ => PersistedOrigin.sphinxToolchain

/-- Origin of the state surviving a notebook operation: opening a
connection and setting a parameter change state the vendor SDK holds;
reads, listings and closes persist nothing of this repository's own. -/
def opPersistedOrigin : Op → PersistedOrigin
  | Op.openServer _ => PersistedOrigin.vendorSdk
  | Op.openInstr _ _ => PersistedOrigin.vendorSdk
  | Op.setParam _ _ _ => PersistedOrigin.vendorSdk
  | _ => PersistedOrigin.nothingPersisted

/-- Make's execution of a recipe: run the lines in order; a failing line
aborts the target with that line's error unless the line carries the
ignore-errors marker. -/
def runCmds {e : Type} (exec : MakeCmd → Except e Unit) : List MakeCmd → Except e Unit
  | [] => Except.ok ()
  | c :: cs =>
    match exec c with
    | Except.ok _ => runCmds exec cs
    | Except.error err => if c.ignoreErrors then runCmds exec cs else Except.error err

/-- Running a make target: execute the planned recipe lines in order. -/
def runTarget {e : Type} (t : String) (exec : MakeCmd → Except e Unit) : Except e Unit :=
  runCmds exec (planCmds t)

/-- A notebook's cells run in order; an operation that raises stops the
run with that error (the cells contain no handler of any kind). -/
def runOps {e : Type} (exec : Op → Except e Unit) : List Op → Except e Unit
  | [] => Except.ok ()
  | op :: ops =>
    match exec op with
    | Except.ok _ => runOps exec ops
    | Except.error err => Except.error err

/-- The extra sphinx-build options a rule's recipe passes beyond the
standard pass-through ones. -/
def ruleSphinxExtraOpts (r : MakeRule) : List String :=
  r.recipe.flatMap (fun c =>
    match c.prog with
    | Prog.sphinxBuild _ _ _ extra => extra
    | _ => [])

/-- The sphinx-build options disable notebook execution (the
`-D nbsphinx_execute=never` override is among them). -/
def optsDisableNbExecution (extra : List String) : Bool :=
  extra.contains "nbsphinx_execute=never"

/-- Whether nbsphinx runs a notebook's code cells during a sphinx html
build with extra options `extra`: it does not when the build overrides
`nbsphinx_execute` to `never`, nor when the notebook's own metadata says
`execute: never`. -/
def cellsExecuted (extra : List String) (nb : Notebook) : Bool :=
  !(optsDisableNbExecution extra) && !(nb.nbsphinxExecute == some "never")

/-- Modelled from the spec: the Thorlabs driver classes (MFF10x, PRM1Z8,
KLS1550) are not among the provided sources - only the notebooks calling
them are.  Per the spec, parameters are "pass-through values to vendor
hardware state": `holds i p v` is the value the vendor hardware ends up
holding for parameter `p` of instrument `i` after the DLL is told to write
`v` (the hardware may quantize, e.g. the PRM1Z8 holds `200.00189208984375`
after being told to move to `200.0`). -/
structure VendorHw where
  holds : String → String → PyValue → PyValue

/-- Modelled from the spec: the driver-visible state is exactly the vendor
hardware state - one current value per (instrument, parameter) - with no
repository-side cache or transformation. -/
def HwState : Type := String → String → PyValue

/-- Modelled from the spec: `set` forwards the value to the vendor DLL,
which leaves the hardware holding `hw.holds i p v`; nothing else changes. -/
def paramSet (hw : VendorHw) (s : HwState) (i p : String) (v : PyValue) : HwState :=
  fun i2 p2 => if i2 == i && p2 == p then hw.holds i p v else s i2 p2

/-- Modelled from the spec: `get` reads the vendor hardware's current
value, with no cache in between. -/
def paramGet (s : HwState) (i p : String) : PyValue := s i p

/-- Replay one notebook operation against the pass-through semantics: a
`set` updates the hardware state, a `get` with a recorded output checks the
output against the hardware's current value; other operations leave the
parameter state alone. -/
def replayStep (hw : VendorHw) (s : HwState) : Op → Option HwState
  | Op.getParam i p obs _ _ =>
    match obs with
    | none => some s
    | some v => if v == paramGet s i p then some s else none
  | Op.setParam i p v => some (paramSet hw s i p v)
  | _ => some s

/-- Replay a whole operation sequence; `true` iff every recorded get output
matches the pass-through hardware state. -/
def replayOk (hw : VendorHw) : HwState → List Op → Bool
  | _, [] => true
  | s, op :: ops =>
    match replayStep hw s op with
    | some s2 => replayOk hw s2 ops
    | none => false

/-- A concrete vendor hardware consistent with the notebooks' outputs: the
PRM1Z8's rotation stage quantizes a commanded `200.0` degrees to
`200.00189208984375`; every other write is held exactly. -/
def exampleHw : VendorHw :=
  ⟨fun i _ v =>
    if i == "thorlabs_prm1z8" && v == PyValue.pyFloat 2000 1 then
      PyValue.pyFloat 20000189208984375 14
    else v⟩

/-- The hardware state at the start of the notebook sessions, as the first
reads record it: the PRM1Z8 stands at `90.00012969970703` degrees, the
MFF10x flipper at position `0`. -/
def initialHwState : HwState := fun i p =>
  if i == "thorlabs_prm1z8" && p == "position" then PyValue.pyFloat 9000012969970703 14
  else if i == "thorlabs_mff10x" && p == "position" then PyValue.pyInt 0
  else PyValue.pyBool false

/-- The recorded outputs of `i.p.get()` calls in a notebook. -/
def observedGetOutputs (nb : Notebook) (i p : String) : List PyValue :=
  nb.ops.filterMap (fun op =>
    match op with
    | Op.getParam i2 p2 (some v) _ _ => if i2 == i && p2 == p then some v else none
    | _ => none)

/-- The unit strings printed alongside `i.p.get()` calls in a notebook. -/
def shownUnits (nb : Notebook) (i p : String) : List String :=
  nb.ops.filterMap (fun op =>
    match op with
    | Op.getParam i2 p2 _ _ (some u) => if i2 == i && p2 == p then some u else none
    | _ => none)

/-- The arguments of `i.p.set(...)` calls in a notebook. -/
def setArgs (nb : Notebook) (i p : String) : List PyValue :=
  nb.ops.filterMap (fun op =>
    match op with
    | Op.setParam i2 p2 v => if i2 == i && p2 == p then some v else none
    | _ => none)

/-- All recorded outputs of `position.get()` across the example notebooks. -/
def positionGetOutputs : List PyValue :=
  exampleNotebooks.flatMap (fun nb =>
    nb.ops.filterMap (fun op =>
      match op with
      | Op.getParam _ "position" (some v) _ _ => some v
      | _ => none))

/-- The value is a Python float. -/
def isFloatValue : PyValue → Bool
  | PyValue.pyFloat _ _ => true
  | _ => false

/-- The value is a Python bool. -/
def isBoolValue : PyValue → Bool
  | PyValue.pyBool _ => true
  | _ => false

/-- Whether a sphinx-build make mode writes build output: the `help` mode
only prints the list of targets, the `clean` mode removes the build tree;
every other mode (html, latex, ...) produces a build. -/
def progWritesBuildOutput : Prog → Bool
  | Prog.sphinxBuild m _ _ _ => !(m == "help" || m == "clean")
  | Prog.sphinxApidoc _ _ _ _ => true
  | Prog.rmrf _ => false
  | Prog.mkdirp _ => true
  | Prog.copyFiles _ _ => true

/-- Dispatch of any target name other than the four explicitly named ones
lands on the catch-all rule. -/
theorem resolveTarget_eq_catchAll (t : String) (h1 : t ≠ "help") (h2 : t ≠ "clean")
    (h3 : t ≠ "genapi") (h4 : t ≠ "htmlfast") : resolveTarget t = catchAllRule t := by
  unfold resolveTarget
  rw [if_neg h1, if_neg h2, if_neg h3, if_neg h4]

/-- For a catch-all target the planned rules are `genapi` then the target. -/
theorem planRules_catchAll (t : String) (h1 : t ≠ "help") (h2 : t ≠ "clean")
    (h3 : t ≠ "genapi") (h4 : t ≠ "htmlfast") :
    planRules t = [genapiRule, catchAllRule t] := by
  unfold planRules
  rw [resolveTarget_eq_catchAll t h1 h2 h3 h4]
  rfl

/-- For a catch-all target the planned recipe is `genapi`'s recipe followed
by the target's sphinx-build invocation. -/
theorem planCmds_catchAll (t : String) (h1 : t ≠ "help") (h2 : t ≠ "clean")
    (h3 : t ≠ "genapi") (h4 : t ≠ "htmlfast") :
    planCmds t = genapiRule.recipe ++ (catchAllRule t).recipe := by
  unfold planCmds
  rw [planRules_catchAll t h1 h2 h3 h4]
  rfl

/-- No recipe line of any target carries the ignore-errors marker. -/
theorem planCmds_strict (t : String) :
    (planCmds t).all (fun c => !c.ignoreErrors) = true := by
  by_cases h1 : t = "help"
  · subst h1; decide
  by_cases h2 : t = "clean"
  · subst h2; decide
  by_cases h3 : t = "genapi"
  · subst h3; decide
  by_cases h4 : t = "htmlfast"
  · subst h4; decide
  rw [planCmds_catchAll t h1 h2 h3 h4]
  rfl

/-- A recipe whose failing line does not ignore errors aborts with exactly
that line's error. -/
theorem runCmds_propagates {e : Type} (exec : MakeCmd → Except e Unit)
    (pre : List MakeCmd) (c : MakeCmd) (post : List MakeCmd) (err : e)
    (hstrict : c.ignoreErrors = false) (hpre : ∀ c2 ∈ pre, exec c2 = Except.ok ())
    (hfail : exec c = Except.error err) :
    runCmds exec (pre ++ c :: post) = Except.error err := by
  induction pre with
  | nil => simp [runCmds, hfail, hstrict]
  | cons c1 rest ih =>
    have h1 : exec c1 = Except.ok () := hpre c1 (by simp)
    have h2 : ∀ c2 ∈ rest, exec c2 = Except.ok () := fun c2 hm => hpre c2 (by simp [hm])
    simpa [runCmds, h1] using ih h2

/-- A notebook run aborts with exactly the error of its first failing
operation. -/
theorem runOps_propagates {e : Type} (exec : Op → Except e Unit)
    (pre : List Op) (op : Op) (post : List Op) (err : e)
    (hpre : ∀ o2 ∈ pre, exec o2 = Except.ok ())
    (hfail : exec op = Except.error err) :
    runOps exec (pre ++ op :: post) = Except.error err := by
  induction pre with
  | nil => simp [runOps, hfail]
  | cons o1 rest ih =>
    have h1 : exec o1 = Except.ok () := hpre o1 (by simp)
    have h2 : ∀ o2 ∈ rest, exec o2 = Except.ok () := fun o2 hm => hpre o2 (by simp [hm])
    simpa [runOps, h1] using ih h2

/-- C1, counterexample: the target `htmlfast` refutes the claim as stated -
it is not one of `html`, `clean`, `genapi`, and it is not passed through to
sphinx-build unchanged either: its recipe invokes sphinx-build with make
mode `html` (not `htmlfast`) and the extra options
`-D nbsphinx_execute=never`. -/
theorem c1_counterexample :
    ¬("htmlfast" ∈ (["html", "clean", "genapi"] : List String) ∨
      passedThroughUnchanged "htmlfast" = true) := by decide

/-- C1 (amended): the command-line boundary of the documentation build is
the explicit targets `help`, `clean`, `genapi` and `htmlfast`; every other
target name given to make (such as `html`) is passed through to sphinx-build
unchanged by the catch-all rule; and the settable Makefile variables are all
pass-through Sphinx options (or the sphinx-build program itself), never
repository-specific flags. -/
theorem c1_target_boundary :
    (∀ t : String, t ∈ (["help", "clean", "genapi", "htmlfast"] : List String) ∨
      passedThroughUnchanged t = true)
    ∧ makefileVariables.all varIsSphinxPassThrough = true := by
  constructor
  · intro t
    by_cases h1 : t = "help"
    · subst h1; left; decide
    by_cases h2 : t = "clean"
    · subst h2; left; decide
    by_cases h3 : t = "genapi"
    · subst h3; left; decide
    by_cases h4 : t = "htmlfast"
    · subst h4; left; decide
    right
    simp [passedThroughUnchanged, resolveTarget_eq_catchAll t h1 h2 h3 h4, catchAllRule]
  · decide

/-- C2: every Makefile target performs only documentation generation -
`genapi`'s recipe is exactly sphinx-apidoc (maxdepth 10, excluding
`drivers/Spectrum/pyspcm.py`) into `_auto` plus the copy of the generated
`qcodes_contrib_drivers.drivers.*` files into `api/generated/`; every
non-`genapi`, non-`clean`, non-`help` target's rule invokes sphinx-build in
make mode; and every recipe line of every target is documentation work (a
Sphinx toolchain invocation or a file command confined to the generated-doc
area). -/
theorem c2_doc_only_targets :
    genapiRule.recipe =
      [⟨false, false, Prog.sphinxApidoc "_auto" 10 "../src/qcodes_contrib_drivers"
          ["../src/qcodes_contrib_drivers/drivers/Spectrum/pyspcm.py"]⟩,
       ⟨false, false, Prog.mkdirp "api/generated/"⟩,
       ⟨false, false, Prog.copyFiles "_auto/qcodes_contrib_drivers.drivers.*" "api/generated/"⟩]
    ∧ (∀ t : String, t ≠ "genapi" → t ≠ "clean" → t ≠ "help" →
        recipeInvokesSphinxBuild (resolveTarget t) = true)
    ∧ (∀ t : String, (planCmds t).all isDocWork = true) := by
  refine ⟨by decide, ?_, ?_⟩
  · intro t h3 h2 h1
    by_cases h4 : t = "htmlfast"
    · subst h4; decide
    rw [resolveTarget_eq_catchAll t h1 h2 h3 h4]
    rfl
  · intro t
    by_cases h1 : t = "help"
    · subst h1; decide
    by_cases h2 : t = "clean"
    · subst h2; decide
    by_cases h3 : t = "genapi"
    · subst h3; decide
    by_cases h4 : t = "htmlfast"
    · subst h4; decide
    rw [planCmds_catchAll t h1 h2 h3 h4]
    rfl

/-- C2, witness: the `html` target invokes sphinx-build and all its planned
recipe lines are documentation work. -/
theorem c2_witness :
    recipeInvokesSphinxBuild (resolveTarget "html") = true
    ∧ (planCmds "html").all isDocWork = true :=
  ⟨c2_doc_only_targets.2.1 "html" (by decide) (by decide) (by decide),
   c2_doc_only_targets.2.2 "html"⟩

/-- C3, counterexample: not every `position` parameter's `get()` returns a
float-valued angle in degrees - the MFF10x notebook records the integer `0`
as a `position.get()` output. -/
theorem c3_counterexample :
    PyValue.pyInt 0 ∈ positionGetOutputs
    ∧ isFloatValue (PyValue.pyInt 0) = false
    ∧ positionGetOutputs.all isFloatValue = false := by decide

/-- C3 (amended): the parameters exposed in the examples are accessed
through get/set accessors; the PRM1Z8 `position` parameter is float-valued
in degrees (every recorded output a float, printed with label `position`
and unit `°`), the KLS1550 `power` parameter takes float values (in Watts
per the notebook) and `output_enabled` takes bool values; but the MFF10x
`position` parameter takes the integer values `0` and `1` (the flipper
position index), not a float-valued angle in degrees. -/
theorem c3_parameter_types :
    observedGetOutputs prm1z8Notebook "thorlabs_prm1z8" "position" =
      [PyValue.pyFloat 9000012969970703 14, PyValue.pyFloat 20000189208984375 14]
    ∧ (observedGetOutputs prm1z8Notebook "thorlabs_prm1z8" "position").all isFloatValue = true
    ∧ shownUnits prm1z8Notebook "thorlabs_prm1z8" "position" = ["°", "°"]
    ∧ observedGetOutputs mff10xNotebook "thorlabs_mff10x" "position" =
      [PyValue.pyInt 0, PyValue.pyInt 1]
    ∧ setArgs mff10xNotebook "thorlabs_mff10x" "position" = [PyValue.pyInt 1]
    ∧ setArgs kls1550Notebook "laser" "power" = [PyValue.pyFloat 1 3]
    ∧ (setArgs kls1550Notebook "laser" "power").all isFloatValue = true
    ∧ setArgs kls1550Notebook "laser" "output_enabled" =
      [PyValue.pyBool true, PyValue.pyBool false]
    ∧ (setArgs kls1550Notebook "laser" "output_enabled").all isBoolValue = true := by decide

/-- C4: in every example notebook the operations follow the
open-connection/close-connection lifecycle - the connection is opened
before any parameter get or set, every get/set happens while it is open,
no get or set occurs after close, every instrument opened is closed, and
the final operation is a close. -/
theorem c4_lifecycle :
    (exampleNotebooks.all (fun nb => lifecycleOK nb.ops)) = true := by decide

/-- C5: parameters are pass-through values to vendor hardware state - after
`set(v)`, a `get()` with no intervening set returns exactly the value the
vendor hardware holds for `v`, independently of any previous repository-side
state; and this pass-through semantics reproduces every output recorded in
the example notebooks (with a hardware that quantizes the PRM1Z8's
commanded 200.0 degrees to 200.00189208984375). -/
theorem c5_passthrough :
    (∀ (hw : VendorHw) (s : HwState) (i p : String) (v : PyValue),
      paramGet (paramSet hw s i p v) i p = hw.holds i p v)
    ∧ (∀ (hw : VendorHw) (s s2 : HwState) (i p : String) (v : PyValue),
      paramGet (paramSet hw s i p v) i p = paramGet (paramSet hw s2 i p v) i p)
    ∧ (exampleNotebooks.all (fun nb => replayOk exampleHw initialHwState nb.ops)) = true := by
  refine ⟨?_, ?_, by decide⟩
  · intro hw s i p v
    simp [paramGet, paramSet]
  · intro hw s s2 i p v
    simp [paramGet, paramSet]

/-- C6: no operation at the observable boundary persists state whose
content this repository defines - every Makefile recipe line of every
target persists either Sphinx-toolchain-produced content or nothing, and
every notebook operation persists either vendor-SDK state or nothing. -/
theorem c6_no_repo_defined_state :
    (∀ t : String,
      (planCmds t).all (fun c => !(cmdPersistedOrigin c == PersistedOrigin.repoDefined)) = true)
    ∧ (exampleNotebooks.all (fun nb =>
        nb.ops.all (fun op => !(opPersistedOrigin op == PersistedOrigin.repoDefined)))) = true := by
  constructor
  · intro t
    by_cases h1 : t = "help"
    · subst h1; decide
    by_cases h2 : t = "clean"
    · subst h2; decide
    by_cases h3 : t = "genapi"
    · subst h3; decide
    by_cases h4 : t = "htmlfast"
    · subst h4; decide
    rw [planCmds_catchAll t h1 h2 h3 h4]
    rfl
  · decide

/-- C7: no error handling is implemented in the repository - for any make
target, if a planned recipe line fails (earlier lines succeeding), the
target fails with exactly that error, because no line carries make's
ignore-errors marker; and for any example notebook, if an operation raises
(earlier operations succeeding), the run stops with exactly that error,
there being no catch, retry, or recovery branch. -/
theorem c7_error_propagation :
    (∀ (e : Type) (t : String) (exec : MakeCmd → Except e Unit)
      (pre : List MakeCmd) (c : MakeCmd) (post : List MakeCmd) (err : e),
      planCmds t = pre ++ c :: post → (∀ c2 ∈ pre, exec c2 = Except.ok ()) →
      exec c = Except.error err → runTarget t exec = Except.error err)
    ∧ (∀ (e : Type) (exec : Op → Except e Unit) (nb : Notebook)
      (pre : List Op) (op : Op) (post : List Op) (err : e),
      nb ∈ exampleNotebooks → nb.ops = pre ++ op :: post →
      (∀ o2 ∈ pre, exec o2 = Except.ok ()) →
      exec op = Except.error err → runOps exec nb.ops = Except.error err) := by
  constructor
  · intro e t exec pre c post err hplan hpre hfail
    have hmem : c ∈ planCmds t := by
      rw [hplan]
      exact List.mem_append_right _ (List.mem_cons_self _ _)
    have hstrict : c.ignoreErrors = false := by
      have hall := planCmds_strict t
      rw [List.all_eq_true] at hall
      simpa using hall c hmem
    unfold runTarget
    rw [hplan]
    exact runCmds_propagates exec pre c post err hstrict hpre hfail
  · intro e exec nb pre op post err _ hops hpre hfail
    rw [hops]
    exact runOps_propagates exec pre op post err hpre hfail

/-- C7, witness: an interpreter that fails on every command makes the
`html` target fail with that very error, and likewise for the first
operation of the MFF10x notebook. -/
theorem c7_witness :
    runTarget "html" (fun _ => Except.error "boom") = Except.error "boom"
    ∧ runOps (fun _ => Except.error "boom") mff10xNotebook.ops = Except.error "boom" := by
  constructor
  · exact c7_error_propagation.1 String "html" (fun _ => Except.error "boom") []
      ⟨false, false, Prog.sphinxApidoc "_auto" 10 "../src/qcodes_contrib_drivers"
        ["../src/qcodes_contrib_drivers/drivers/Spectrum/pyspcm.py"]⟩
      [⟨false, false, Prog.mkdirp "api/generated/"⟩,
       ⟨false, false, Prog.copyFiles "_auto/qcodes_contrib_drivers.drivers.*" "api/generated/"⟩,
       ⟨false, true, Prog.sphinxBuild "html" sourceDir buildDir []⟩]
      "boom" (by decide) (by intro c2 h; cases h) rfl
  · exact c7_error_propagation.2 String (fun _ => Except.error "boom") mff10xNotebook []
      (Op.openServer "apt")
      [ Op.openInstr "thorlabs_mff10x" "apt",
        Op.getParam "thorlabs_mff10x" "position" (some (PyValue.pyInt 0)) none none,
        Op.setParam "thorlabs_mff10x" "position" (PyValue.pyInt 1),
        Op.getParam "thorlabs_mff10x" "position" (some (PyValue.pyInt 1)) none none,
        Op.closeInstr "thorlabs_mff10x",
        Op.cleanupServer "apt" ]
      "boom" (by decide) (by decide) (by intro o2 h; cases h) rfl

/-- C8: `make` with no target behaves like `make help` - the help rule is
the first rule of the Makefile, so the default goal is `help`, whose plan
is the single silenced `sphinx-build -M help` invocation, which prints the
Sphinx help text and writes no build output. -/
theorem c8_default_goal_help :
    defaultGoal = "help"
    ∧ planCmds defaultGoal = planCmds "help"
    ∧ planCmds "help" = [⟨false, true, Prog.sphinxBuild "help" sourceDir buildDir []⟩]
    ∧ (planCmds "help").all (fun c => !progWritesBuildOutput c.prog) = true := by decide

/-- C9: every make target other than `help` and `clean` runs `genapi`
before invoking sphinx-build - its plan contains the `genapi` rule and
starts with `genapi`'s three-line recipe - whereas the plans of `help` and
`clean` never include `genapi`. -/
theorem c9_genapi_before_sphinx :
    (∀ t : String, t ≠ "help" → t ≠ "clean" →
      ("genapi" ∈ planNames t ∧ (planCmds t).take 3 = genapiRule.recipe))
    ∧ genapiRule.recipe.length = 3
    ∧ "genapi" ∉ planNames "help"
    ∧ "genapi" ∉ planNames "clean" := by
  refine ⟨?_, by decide, by decide, by decide⟩
  intro t h1 h2
  by_cases h3 : t = "genapi"
  · subst h3
    exact ⟨by decide, by decide⟩
  by_cases h4 : t = "htmlfast"
  · subst h4
    exact ⟨by decide, by decide⟩
  constructor
  · unfold planNames
    rw [planRules_catchAll t h1 h2 h3 h4]
    exact List.mem_cons_self _ _
  · rw [planCmds_catchAll t h1 h2 h3 h4]
    rfl

/-- C9, witness: the `html` target's plan includes `genapi` and starts with
its recipe. -/
theorem c9_witness :
    "genapi" ∈ planNames "html" ∧ (planCmds "html").take 3 = genapiRule.recipe :=
  c9_genapi_before_sphinx.1 "html" (by decide) (by decide)

/-- C10: the `htmlfast` target builds the HTML documentation without
executing any notebook - its sphinx-build invocation carries exactly the
extra options `-D nbsphinx_execute=never`, the two notebooks whose metadata
the sources record additionally carry `nbsphinx: execute: never`, and under
the htmlfast options no example notebook's code cells run. -/
theorem c10_htmlfast_no_execution :
    ruleSphinxExtraOpts htmlfastRule = ["-D", "nbsphinx_execute=never"]
    ∧ optsDisableNbExecution (ruleSphinxExtraOpts htmlfastRule) = true
    ∧ mff10xNotebook.nbsphinxExecute = some "never"
    ∧ prm1z8Notebook.nbsphinxExecute = some "never"
    ∧ (exampleNotebooks.all
        (fun nb => !(cellsExecuted (ruleSphinxExtraOpts htmlfastRule) nb))) = true := by decide
